import Mathlib

/-!
Verification development for the audio-generation pipeline of a Django
text-to-speech application.  The Python source is shallowly embedded:
strings are `List Char`, byte buffers are `List Nat`, the ORM tables are
lists of row structures, and external collaborators (AWS Polly, pydub,
boto3, CloudFront crypto) are parameters of the embedded functions.
-/

/-! ## Text chunking (`PollyService.chunk_text`) -/

/-- Python `str.strip` / `str.split()` whitespace class (ASCII part,
which is all the development uses). -/
def isPySpace (c : Char) : Bool :=
  c = ' ' || c = '\t' || c = '\n' || c = '\r' || c = '\x0b' || c = '\x0c'

/-- Python `str.strip()`: drop leading and trailing whitespace. -/
def pyStrip (s : List Char) : List Char :=
  ((s.dropWhile isPySpace).reverse.dropWhile isPySpace).reverse

/-- Python `str.split(sep)` for a one-character separator: splits on every
occurrence, keeping empty pieces (so `"".split(".") == [""]`). -/
def pySplitOn (sep : Char) : List Char → List (List Char)
  | [] => [[]]
  | c :: rest =>
    let r := pySplitOn sep rest
    if c = sep then
      [] :: r
    else
      match r with
      | [] => [[c]]
      | h :: t => (c :: h) :: t

/-- Helper for `pySplitWs`: scans the input left to right, `tok` holding
the current (reversed) in-progress token. -/
def pySplitWsAux : List Char → List Char → List (List Char)
  | [], tok => if tok = [] then [] else [tok.reverse]
  | c :: rest, tok =>
    if isPySpace c then
      if tok = [] then pySplitWsAux rest []
      else tok.reverse :: pySplitWsAux rest []
    else
      pySplitWsAux rest (c :: tok)

/-- Python `str.split()` with no separator: whitespace-delimited tokens,
empty pieces dropped. -/
def pySplitWs (s : List Char) : List (List Char) :=
  pySplitWsAux s []

/-- The inner word loop of `chunk_text` (lines 90-100): greedily pack
whitespace tokens of an oversized sentence into `temp_chunk`, flushing to
`chunks` when the next word would not fit.  Returns the accumulated
chunks and the final `temp_chunk`. -/
def packWords (maxChars : Nat) :
    List (List Char) → List Char → List (List Char) → List (List Char) × List Char
  | [], temp, chunks => (chunks, temp)
  | w :: ws, temp, chunks =>
    if temp.length + w.length + 1 ≤ maxChars then
      packWords maxChars ws (temp ++ w ++ [' ']) chunks
    else
      packWords maxChars ws (w ++ [' '])
        (if temp = [] then chunks else chunks ++ [pyStrip temp])

/-- The sentence loop of `chunk_text` (lines 83-108): accumulate sentences
into `current_chunk`; oversized sentences are handed to the word loop.
Returns the accumulated chunks and the final `current_chunk`. -/
def chunkLoop (maxChars : Nat) :
    List (List Char) → List Char → List (List Char) → List (List Char) × List Char
  | [], current, chunks => (chunks, current)
  | sentence :: rest, current, chunks =>
    let s := pyStrip sentence
    if s = [] then
      chunkLoop maxChars rest current chunks
    else if maxChars < s.length then
      let (chunks1, temp) := packWords maxChars (pySplitWs s) [] chunks
      chunkLoop maxChars rest current
        (if temp = [] then chunks1 else chunks1 ++ [pyStrip temp])
    else if current.length + s.length + 2 ≤ maxChars then
      chunkLoop maxChars rest (current ++ s ++ ['.', ' ']) chunks
    else
      chunkLoop maxChars rest (s ++ ['.', ' '])
        (if current = [] then chunks else chunks ++ [pyStrip current])

/-- Line 81 of `chunk_text`: `text.replace("!", ".").replace("?", ".")`. -/
def normalizeTerminators (text : List Char) : List Char :=
  text.map fun c => if c = '!' || c = '?' then '.' else c

/-- `PollyService.chunk_text` (services.py lines 60-113), parameterised by
`maxChars = settings.POLLY_MAX_CHARS_PER_REQUEST`. -/
def chunkText (maxChars : Nat) (text : List Char) : List (List Char) :=
  if text.length ≤ maxChars then
    [text]
  else
    let sentences := pySplitOn '.' (normalizeTerminators text)
    let res := chunkLoop maxChars sentences [] []
    let chunks1 := if res.2 = [] then res.1 else res.1 ++ [pyStrip res.2]
    if chunks1 = [] then [text.take maxChars] else chunks1

/-! ## Audio merging (`PollyService.merge_audio_chunks`) -/

/-- MP3 byte buffers are modelled as lists of bytes. -/
abbrev ByteBuf := List Nat

/-- The `for chunk_bytes in audio_chunks[1:]` loop of `merge_audio_chunks`
(services.py lines 227-229): decode each remaining buffer and append it to
the running `combined` segment.  `dec` is pydub's `AudioSegment.from_mp3`
(its exception text when decoding fails), `app` is segment concatenation. -/
def mergeDecodeAll {Seg : Type} (dec : ByteBuf → Except String Seg)
    (app : Seg → Seg → Seg) (acc : Seg) : List ByteBuf → Except String Seg
  | [] => .ok acc
  | b :: rest =>
    match dec b with
    | .error e => .error e
    | .ok s => mergeDecodeAll dec app (app acc s) rest

/-- `PollyService.merge_audio_chunks` (services.py lines 202-239).
The pydub collaborator is passed in: `dec` decodes MP3 bytes into a
segment (failing with the library's exception text), `app` concatenates
segments, `expOut` is `export(..., format mp3, bitrate 128k)`.
Any exception inside the `try` block is converted to
`AudioGenerationError("Failed to merge audio chunks: " + str(e))`
(line 239), which embeds the raw exception text. -/
def mergeAudioChunks {Seg : Type} (dec : ByteBuf → Except String Seg)
    (app : Seg → Seg → Seg) (expOut : Seg → ByteBuf)
    (audioChunks : List ByteBuf) : Except String ByteBuf :=
  match audioChunks with
  | [] => .error ("No audio chunks to merge")
  | [x] => .ok x
  | first :: rest =>
    match dec first with
    | .error e => .error ("Failed to merge audio chunks: " ++ e)
    | .ok s0 =>
      match mergeDecodeAll dec app s0 rest with
      | .error e => .error ("Failed to merge audio chunks: " ++ e)
      | .ok combined => .ok (expOut combined)

/-! ## Data model (`speech_processing/models.py`) -/

/-- `AudioGenerationStatus` choices (models.py lines 12-16). -/
inductive AudioGenStatus
  | pending
  | generating
  | completed
  | failed
deriving DecidableEq, Repr

/-- `AudioLifetimeStatus` choices (models.py lines 34-37). -/
inductive LifetimeStatus
  | active
  | deleted
  | expired
deriving DecidableEq, Repr

/-- `SharingPermission` choices (models.py lines 19-22). -/
inductive SharingPerm
  | viewOnly
  | collaborator
  | canShare
deriving DecidableEq, Repr

/-- One `Audio` table row (models.py lines 52-99).  Timestamps are not
needed by any claim and are omitted. -/
structure AudioRow where
  id : Nat
  pageId : Nat
  voice : String
  generatedBy : Nat
  s3Key : String
  status : AudioGenStatus
  lifetimeStatus : LifetimeStatus
  errorMessage : Option String
deriving DecidableEq, Repr

/-- A `DocumentPage` row, reduced to what the pipeline consumes. -/
structure PageRow where
  id : Nat
  documentId : Nat
deriving DecidableEq, Repr

/-- A `Document` row, reduced to its owner. -/
structure DocumentRow where
  id : Nat
  userId : Nat
deriving DecidableEq, Repr

/-- One `DocumentSharing` table row (models.py lines 209-243). -/
structure SharingRow where
  documentId : Nat
  sharedWith : Nat
  permission : SharingPerm
deriving DecidableEq, Repr

/-- `DocumentSharing.can_generate_audio` (models.py lines 248-253). -/
def canGenerateAudio (s : SharingRow) : Bool :=
  s.permission = SharingPerm.collaborator || s.permission = SharingPerm.canShare

/-- The mutable fields of `SiteSettings` (models.py lines 316-349). -/
structure SiteSettingsFields where
  audioGenerationEnabled : Bool
  audioRetentionMonths : Nat
  expiryWarningDays : Nat
  enableEmailNotifications : Bool
  enableInAppNotifications : Bool
  maxAudiosPerPage : Nat
  autoDeleteExpiredEnabled : Bool
deriving DecidableEq, Repr

/-- A persisted `SiteSettings` row: primary key plus fields. -/
structure SiteSettingsRow where
  pk : Nat
  fields : SiteSettingsFields
deriving DecidableEq, Repr

/-- An in-memory `SiteSettings` model instance before saving: `pk` is
`none` for a freshly constructed instance and `some k` when the caller
assigned one (or the instance was loaded from the database). -/
structure SiteSettingsInstance where
  pk : Option Nat
  fields : SiteSettingsFields
deriving DecidableEq, Repr

/-- The defaults used by `SiteSettings.get_settings` (models.py 366-377),
which coincide with the field defaults. -/
def siteSettingsDefaults : SiteSettingsFields :=
  { audioGenerationEnabled := true
    audioRetentionMonths := 6
    expiryWarningDays := 30
    enableEmailNotifications := true
    enableInAppNotifications := true
    maxAudiosPerPage := 4
    autoDeleteExpiredEnabled := true }

/-- `SiteSettings.save` (models.py lines 354-358) over a database state
(the list of persisted rows).  The guard raises
`ValidationError("Only one SiteSettings instance is allowed.")` when the
instance has no primary key and a row already exists; otherwise Django's
`Model.save` runs: a pk-less instance is INSERTed under a fresh key, and
an instance with an explicit pk is UPDATEd when a row with that pk
exists, else INSERTed (Django falls back to INSERT when the UPDATE
matches no row). -/
def siteSettingsSave (db : List SiteSettingsRow) (inst : SiteSettingsInstance) :
    Except String (List SiteSettingsRow) :=
  match inst.pk with
  | none =>
    if db ≠ [] then
      .error ("Only one SiteSettings instance is allowed.")
    else
      .ok (db ++ [⟨(db.map (·.pk)).foldr max 0 + 1, inst.fields⟩])
  | some k =>
    if db.any (·.pk = k) then
      .ok (db.map fun r => if r.pk = k then ⟨k, inst.fields⟩ else r)
    else
      .ok (db ++ [⟨k, inst.fields⟩])

/-- `SiteSettings.get_settings` (models.py lines 363-378):
`get_or_create(pk=1, defaults=...)`.  Returns the (possibly extended)
database and the settings row. -/
def getSettings (db : List SiteSettingsRow) : List SiteSettingsRow × SiteSettingsRow :=
  match db.find? (·.pk = 1) with
  | some r => (db, r)
  | none => (db ++ [⟨1, siteSettingsDefaults⟩], ⟨1, siteSettingsDefaults⟩)

/-! ## Allocation (`AudioGenerationService`, services.py lines 396-588) -/

/-- The ASCII apostrophe, spelled via its code point. -/
def apos : String := String.singleton (Char.ofNat 39)

/-- Error text of `check_generation_allowed` when the lifetime quota is
reached (services.py lines 429-432). -/
def quotaMsg (maxAudios : Nat) : String :=
  "Maximum " ++ toString maxAudios ++ " audios per page reached (lifetime quota)."

/-- Error text of `check_generation_allowed` when the voice is taken
(services.py lines 439-442). -/
def dupVoiceCheckMsg (voice : String) : String :=
  "Voice " ++ voice ++
    " is already used for this page. Please choose a different voice or delete the existing audio."

/-- Error text of `create_audio_record` when the locked re-check finds the
voice taken (services.py lines 497-500). -/
def dupVoiceLockedMsg (voice : String) : String :=
  "Voice " ++ voice ++
    " is already being used for this page. Please refresh and try again."

/-- The `Audio.objects.filter(page=..., voice=..., lifetime_status=ACTIVE)
.exists()` query run by both `check_generation_allowed` (lines 435-437)
and the locked re-check of `create_audio_record` (lines 490-494). -/
def hasActiveVoice (audios : List AudioRow) (pageId : Nat) (voiceId : String) : Bool :=
  audios.any fun a =>
    a.pageId = pageId && a.voice = voiceId &&
      a.lifetimeStatus = LifetimeStatus.active

/-- `AudioGenerationService.check_generation_allowed` (services.py lines
405-462).  Arguments mirror the rows the method reads: the settings row
returned by `SiteSettings.get_settings`, the `Audio` table, the
`DocumentSharing` table, the page's document, the page, the requesting
user and the voice.  Returns `(allowed, error_message)`. -/
def checkGenerationAllowed (settingsObj : SiteSettingsRow) (audios : List AudioRow)
    (sharings : List SharingRow) (document : DocumentRow) (page : PageRow)
    (userId : Nat) (voiceId : String) : Bool × Option String :=
  if !settingsObj.fields.audioGenerationEnabled then
    (false, some ("Audio generation is currently disabled by administrators."))
  else if settingsObj.fields.maxAudiosPerPage ≤
      (audios.filter (·.pageId = page.id)).length then
    (false, some (quotaMsg settingsObj.fields.maxAudiosPerPage))
  else if hasActiveVoice audios page.id voiceId then
    (false, some (dupVoiceCheckMsg voiceId))
  else if document.userId = userId then
    (true, none)
  else
    match sharings.find? fun s =>
        s.documentId = document.id && s.sharedWith = userId with
    | some sharing =>
      if !canGenerateAudio sharing then
        (false, some ("You don" ++ apos ++
          "t have permission to generate audio for this document."))
      else
        (true, none)
    | none =>
      (false, some ("You don" ++ apos ++ "t have access to this document."))

/-- The row `Audio.objects.create(...)` inserts in `create_audio_record`
(services.py lines 503-510): PENDING, ACTIVE, empty S3 key. -/
def newPendingRow (freshId : Nat) (page : PageRow) (voiceId : String)
    (userId : Nat) : AudioRow :=
  { id := freshId, pageId := page.id, voice := voiceId, generatedBy := userId
    s3Key := "", status := AudioGenStatus.pending
    lifetimeStatus := LifetimeStatus.active, errorMessage := none }

/-- The lifetime-quota message of `Audio.clean` (models.py lines 123-124). -/
def quotaCleanMsg (maxAudios : Nat) : String :=
  "Maximum " ++ toString maxAudios ++ " audios per page allowed (lifetime)."

/-- The voice-uniqueness message of `Audio.clean` (models.py lines
141-143). -/
def dupVoiceCleanMsg (voice : String) : String :=
  "Voice " ++ voice ++ " is already used for this page."

/-- `Audio.clean` (models.py lines 112-143) for a new, not yet persisted
row, which is the only way `create_audio_record` reaches it: the
`not self.pk` lifetime-quota branch applies, the row being validated is
not in the table yet, and `exclude(pk=self.pk)` with `pk=None` excludes
nothing.  `clean` re-reads `SiteSettings.get_settings()`, passed in as
`settingsObj`.  Returns the `ValidationError` message of the first
violated rule, or `none` when the row is valid. -/
def audioClean (settingsObj : SiteSettingsRow) (audios : List AudioRow)
    (row : AudioRow) : Option String :=
  if settingsObj.fields.maxAudiosPerPage ≤
      (audios.filter (·.pageId = row.pageId)).length then
    some (quotaCleanMsg settingsObj.fields.maxAudiosPerPage)
  else if row.lifetimeStatus = LifetimeStatus.active &&
      hasActiveVoice audios row.pageId row.voice then
    some (dupVoiceCleanMsg row.voice)
  else
    none

/-- Django renders `str(ValidationError("m"))` as the `repr` of its
message list: a bracketed, single-quoted `m`. -/
def validationErrorStr (msg : String) : String :=
  "[" ++ apos ++ msg ++ apos ++ "]"

/-- `AudioGenerationService.create_audio_record` (services.py lines
464-526).  The body runs inside `transaction.atomic()` holding a
`select_for_update` lock on the page row, so the duplicate re-check and
the insert execute as one atomic step against the `Audio` table; the
embedding is that atomic step.  `Audio.objects.create` calls the
overridden `Audio.save` (models.py line 145), which runs `Audio.clean`
before inserting; a `ValidationError` from `clean` escapes to the
`except Exception` arm (services.py lines 523-526) and is wrapped as
`AudioGenerationError("Failed to create audio record: " + str(e))`.
`freshId` is the primary key the database assigns to the new row.
Returns the created row and the new table state, or the error. -/
def createAudioRecord (settingsObj : SiteSettingsRow) (audios : List AudioRow)
    (page : PageRow) (voiceId : String) (userId : Nat) (freshId : Nat) :
    Except String (AudioRow × List AudioRow) :=
  if hasActiveVoice audios page.id voiceId then
    .error (dupVoiceLockedMsg voiceId)
  else
    match audioClean settingsObj audios (newPendingRow freshId page voiceId userId) with
    | some vmsg =>
      .error ("Failed to create audio record: " ++ validationErrorStr vmsg)
    | none =>
      .ok (newPendingRow freshId page voiceId userId,
        audios ++ [newPendingRow freshId page voiceId userId])

/-- The allocation phase of `AudioGenerationService.generate_audio_for_page`
(services.py lines 543-552): run `check_generation_allowed`; if blocked,
return the error message without touching the `Audio` table; otherwise
create the PENDING record. -/
def generateAudioForPageAlloc (settingsObj : SiteSettingsRow) (audios : List AudioRow)
    (sharings : List SharingRow) (document : DocumentRow) (page : PageRow)
    (userId : Nat) (voiceId : String) (freshId : Nat) :
    Except String (AudioRow × List AudioRow) :=
  match checkGenerationAllowed settingsObj audios sharings document page userId voiceId with
  | (false, errMsg) => .error (errMsg.getD "")
  | (true, _) => createAudioRecord settingsObj audios page voiceId userId freshId

/-- The invariant the `unique_voice_per_page` constraint (models.py lines
104-110) enforces: no two distinct rows are both ACTIVE with the same
page and the same voice. -/
def uniqueActivePerPageVoice (audios : List AudioRow) : Prop :=
  audios.Pairwise fun a b =>
    a.lifetimeStatus = LifetimeStatus.active →
      b.lifetimeStatus = LifetimeStatus.active →
        ¬(a.pageId = b.pageId ∧ a.voice = b.voice)

instance (audios : List AudioRow) : Decidable (uniqueActivePerPageVoice audios) := by
  unfold uniqueActivePerPageVoice
  exact List.instDecidablePairwise audios

/-! ## Presigned URLs (`get_presigned_url`, services.py lines 590-677,
and `core/cloudfront_utils.get_audio_signed_url`) -/

/-- The CloudFront settings triple read by `get_audio_signed_url`
(cloudfront_utils.py lines 181-190); an empty string is a missing value
(Python falsiness). -/
structure CloudFrontConfig where
  domain : String
  keyId : String
  privateKey : String
deriving DecidableEq, Repr

/-- `core.cloudfront_utils.get_audio_signed_url` (cloudfront_utils.py
lines 154-233), cache path elided (Django cache is an external
collaborator; on a cache miss the function always reaches the code
below).  `botocoreSign` is `_botocore_signed_url`: given the resource
path, the domain and the expiration it returns the signed URL or the
`CloudFrontSigningError` text it raises (it wraps every underlying crypto
or key-loading failure).  Every failure mode of the function surfaces as
`CloudFrontSigningError`: the final `except Exception` wraps anything
else. -/
def getAudioSignedUrl (cfg : CloudFrontConfig)
    (botocoreSign : String → String → Nat → Except String String)
    (s3Key : String) (expirationSeconds : Nat) : Except String String :=
  if cfg.domain = "" || cfg.keyId = "" || cfg.privateKey = "" then
    .error ("CloudFront configuration incomplete in settings")
  else if s3Key = "" then
    .error ("Audio has no S3 key")
  else
    botocoreSign s3Key cfg.domain expirationSeconds

/-- `AudioGenerationService._get_s3_presigned_url` (services.py lines
649-677): the boto3 call either yields a URL or raises, and the method
catches every exception and returns `None`, so its behaviour is an
`Option`-valued function of the key and the expiration, passed in as
`s3Presign`. -/
def getS3PresignedUrl (s3Presign : String → Nat → Option String)
    (s3Key : String) (expiration : Nat) : Option String :=
  s3Presign s3Key expiration

/-- `AudioGenerationService.get_presigned_url` (services.py lines
590-647).  `defaultExpiration` is
`settings.AUDIO_PRESIGNED_URL_EXPIRATION_SECONDS`, applied when the
caller passes no expiration.  On `CloudFrontSigningError` the method
falls back to `_get_s3_presigned_url` with the same expiration; any other
escape is caught by the outer handler and becomes `None`, and since
`get_audio_signed_url` only raises `CloudFrontSigningError`, the result
is total: a URL or `none`, never an exception. -/
def getPresignedUrl (cfg : CloudFrontConfig)
    (botocoreSign : String → String → Nat → Except String String)
    (s3Presign : String → Nat → Option String)
    (s3Key : String) (expiration : Option Nat) (defaultExpiration : Nat) :
    Option String :=
  let exp := expiration.getD defaultExpiration
  match getAudioSignedUrl cfg botocoreSign s3Key exp with
  | .ok url => some url
  | .error _ => getS3PresignedUrl s3Presign s3Key exp

/-! ## The Celery task (`generate_audio_task`, tasks.py lines 16-89) -/

/-- The spec's classification of a pipeline failure (retryable throttling /
service-unavailable / transient-network failures versus non-retryable
invalid-input / access-configuration failures), together with the message
of the raised exception.  The task body receives only the exception, so
`retryable` is information the code never inspects. -/
structure PipelineFailure where
  retryable : Bool
  msg : String
deriving DecidableEq, Repr

/-- Observable outcome of one `generate_audio_task` invocation. -/
inductive TaskOutcome
  | notFound (msg : String)
  | success (s3Key : String)
  | retryScheduled (countdownSeconds : Nat)
  | finalFailure (msg : String)
deriving DecidableEq, Repr

/-- `generate_audio_task` (tasks.py lines 16-89) for one invocation.
`selfRetries` is `self.request.retries`, `maxRetries` the decorator's
`max_retries`; `pipelineResult` is the outcome of
`service.polly_service.generate_audio` (the S3 key, or the exception it
raised); `audioExists` is whether `Audio.objects.get(id=audio_id)`
succeeds.  On any exception the audio row is marked FAILED with
`error_message = str(e)`, and the task retries with
`countdown = 60 * 2 ** self.request.retries` whenever retries remain,
regardless of what the exception was; only when retries are exhausted
does it return the failure.  The second component is the error message
stored on the row, when one is stored. -/
def generateAudioTask (maxRetries selfRetries : Nat) (audioExists : Bool)
    (pipelineResult : Except PipelineFailure String) :
    TaskOutcome × Option String :=
  if !audioExists then
    (.notFound ("Audio not found"), none)
  else
    match pipelineResult with
    | .ok s3Key => (.success s3Key, none)
    | .error e =>
      if selfRetries < maxRetries then
        (.retryScheduled (60 * 2 ^ selfRetries), some e.msg)
      else
        (.finalFailure e.msg, some e.msg)

/-- The task as registered: `@shared_task(bind=True, max_retries=3)`
(tasks.py line 16). -/
def generateAudioTaskRun (selfRetries : Nat) (audioExists : Bool)
    (pipelineResult : Except PipelineFailure String) : TaskOutcome × Option String :=
  generateAudioTask 3 selfRetries audioExists pipelineResult

/-! ## Concrete database states used by witnesses -/

/-- One active completed audio (voice Joanna) on page 1. -/
def sampleAudios : List AudioRow :=
  [{ id := 1, pageId := 1, voice := "Joanna", generatedBy := 7
     s3Key := "audios/document_1/page_1/voice_Joanna_20250101_000000.mp3"
     status := AudioGenStatus.completed, lifetimeStatus := LifetimeStatus.active
     errorMessage := none }]

/-- Four audios ever created on page 1 (the default lifetime quota),
mixing ACTIVE, DELETED and EXPIRED lifetimes. -/
def quotaAudios : List AudioRow :=
  [{ id := 1, pageId := 1, voice := "Joanna", generatedBy := 7
     s3Key := "audios/document_1/page_1/voice_Joanna_20250101_000000.mp3"
     status := AudioGenStatus.completed, lifetimeStatus := LifetimeStatus.active
     errorMessage := none },
   { id := 2, pageId := 1, voice := "Matthew", generatedBy := 7
     s3Key := "audios/document_1/page_1/voice_Matthew_20250102_000000.mp3"
     status := AudioGenStatus.completed, lifetimeStatus := LifetimeStatus.deleted
     errorMessage := none },
   { id := 3, pageId := 1, voice := "Ivy", generatedBy := 7
     s3Key := "audios/document_1/page_1/voice_Ivy_20250103_000000.mp3"
     status := AudioGenStatus.completed, lifetimeStatus := LifetimeStatus.expired
     errorMessage := none },
   { id := 4, pageId := 1, voice := "Salli", generatedBy := 7
     s3Key := ""
     status := AudioGenStatus.failed, lifetimeStatus := LifetimeStatus.active
     errorMessage := some ("Audio generation failed. Please try again later.") }]

/-! ## Helper lemmas -/

/-- A list built as `if l = [] then [x] else l` is never empty. -/
theorem if_nil_singleton_ne_nil {α : Type} [DecidableEq α] (l : List α) (x : α) :
    (if l = [] then [x] else l) ≠ [] := by
  split
  · simp
  · assumption

/-- The `!`/`?` normalisation of `chunk_text` keeps whitespace characters
unchanged. -/
theorem normalizeTerminators_of_space {text : List Char}
    (h : ∀ c ∈ text, isPySpace c = true) : normalizeTerminators text = text := by
  unfold normalizeTerminators
  induction text with
  | nil => rfl
  | cons c rest ih =>
    have hc := h c (by simp)
    have hrest : rest.map (fun c => if c = '!' || c = '?' then '.' else c) = rest := by
      have := ih (fun x hx => h x (by simp [hx]))
      simpa [normalizeTerminators] using this
    simp only [List.map_cons, hrest]
    have hne1 : c ≠ '!' := fun he => by subst he; exact absurd hc (by decide)
    have hne2 : c ≠ '?' := fun he => by subst he; exact absurd hc (by decide)
    rw [if_neg (by simp [hne1, hne2])]

/-- Splitting on a separator that occurs nowhere yields the whole input
as the single piece. -/
theorem pySplitOn_eq_single (sep : Char) :
    ∀ (l : List Char), (∀ c ∈ l, c ≠ sep) → pySplitOn sep l = [l] := by
  intro l
  induction l with
  | nil => intro _; rfl
  | cons c rest ih =>
    intro h
    simp only [pySplitOn]
    rw [ih (fun x hx => h x (by simp [hx])), if_neg (h c (by simp))]

/-- Whitespace characters are not sentence separators. -/
theorem isPySpace_ne_dot {c : Char} (h : isPySpace c = true) : c ≠ '.' := by
  intro he
  subst he
  exact absurd h (by decide)

/-- `pyStrip` of an all-whitespace string is empty. -/
theorem pyStrip_eq_nil {l : List Char} (h : ∀ c ∈ l, isPySpace c = true) :
    pyStrip l = [] := by
  unfold pyStrip
  have hd : l.dropWhile isPySpace = [] := by
    induction l with
    | nil => rfl
    | cons c rest ih =>
      rw [List.dropWhile_cons_of_pos (h c (by simp))]
      exact ih (fun x hx => h x (by simp [hx]))
  rw [hd]
  rfl

/-- The duplicate-voice query is false exactly when no row matches. -/
theorem hasActiveVoice_eq_false {audios : List AudioRow} {pid : Nat} {v : String}
    (h : ∀ a ∈ audios,
      ¬(a.pageId = pid ∧ a.voice = v ∧ a.lifetimeStatus = LifetimeStatus.active)) :
    hasActiveVoice audios pid v = false := by
  simp only [hasActiveVoice, List.any_eq_false]
  intro a ha
  have := h a ha
  simp only [Bool.and_eq_true, decide_eq_true_eq]
  tauto

/-! ## Claim theorems -/

/-- C1 counterexample: at a lifetime-quota-full table (four rows ever
created on page 1, default `max_audios_per_page = 4`) with voice Kendra
free, neither racing `create_audio_record` call succeeds: `Audio.clean`,
run inside the locked transaction by the `save` override, raises the
quota `ValidationError`, which `create_audio_record` wraps into the
creation-failure `AudioGenerationError`; the failed first call leaves
the table unchanged, so the second racer fails identically — it is false
that exactly one of the two calls succeeds with the other receiving the
duplicate-voice error. -/
theorem createAudioRecord_quota_full_both_fail :
    createAudioRecord ⟨1, siteSettingsDefaults⟩ quotaAudios ⟨1, 1⟩ "Kendra" 7 5
        = Except.error ("Failed to create audio record: "
            ++ validationErrorStr (quotaCleanMsg 4)) ∧
    createAudioRecord ⟨1, siteSettingsDefaults⟩ quotaAudios ⟨1, 1⟩ "Kendra" 8 6
        = Except.error ("Failed to create audio record: "
            ++ validationErrorStr (quotaCleanMsg 4)) := by
  exact ⟨rfl, rfl⟩

/-- C1 amended: under the resource lock that `create_audio_record` takes
(its re-check, `clean` validation and insert run atomically inside the
transaction), two racing `create_audio_record` calls for the same page
and voice serialize; provided no ACTIVE row for the (page, voice) pair
exists AND the page's lifetime row count is below `max_audios_per_page`
(otherwise `Audio.clean` fails both calls with the quota error), the
first call creates the PENDING/ACTIVE row and the second fails with the
duplicate-voice error, and the at-most-one-ACTIVE-row-per-(page, voice)
invariant is preserved. -/
theorem createAudioRecord_race_exactly_one
    (settingsObj : SiteSettingsRow) (audios : List AudioRow) (page : PageRow)
    (voiceId : String) (u1 u2 freshId1 freshId2 : Nat)
    (hinv : uniqueActivePerPageVoice audios)
    (hquota : (audios.filter (·.pageId = page.id)).length <
      settingsObj.fields.maxAudiosPerPage)
    (hfree : ∀ a ∈ audios,
      ¬(a.pageId = page.id ∧ a.voice = voiceId ∧
        a.lifetimeStatus = LifetimeStatus.active)) :
    createAudioRecord settingsObj audios page voiceId u1 freshId1
        = Except.ok (newPendingRow freshId1 page voiceId u1,
            audios ++ [newPendingRow freshId1 page voiceId u1]) ∧
    (newPendingRow freshId1 page voiceId u1).status = AudioGenStatus.pending ∧
    (newPendingRow freshId1 page voiceId u1).lifetimeStatus = LifetimeStatus.active ∧
    createAudioRecord settingsObj (audios ++ [newPendingRow freshId1 page voiceId u1])
        page voiceId u2 freshId2 = Except.error (dupVoiceLockedMsg voiceId) ∧
    uniqueActivePerPageVoice (audios ++ [newPendingRow freshId1 page voiceId u1]) := by
  have h1 : hasActiveVoice audios page.id voiceId = false :=
    hasActiveVoice_eq_false hfree
  have hclean : audioClean settingsObj audios
      (newPendingRow freshId1 page voiceId u1) = none := by
    have hp : (newPendingRow freshId1 page voiceId u1).pageId = page.id := rfl
    have hv : (newPendingRow freshId1 page voiceId u1).voice = voiceId := rfl
    unfold audioClean
    rw [hp, hv, if_neg (Nat.not_le.mpr hquota)]
    simp [h1]
  refine ⟨?_, rfl, rfl, ?_, ?_⟩
  · simp [createAudioRecord, h1, hclean]
  · have h2 : hasActiveVoice (audios ++ [newPendingRow freshId1 page voiceId u1])
        page.id voiceId = true := by
      simp [hasActiveVoice, List.any_append, newPendingRow]
    simp [createAudioRecord, h2]
  · unfold uniqueActivePerPageVoice at hinv ⊢
    rw [List.pairwise_append]
    refine ⟨hinv, by simp, ?_⟩
    intro a ha b hb
    simp only [List.mem_singleton] at hb
    subst hb
    intro hact _ hcon
    exact hfree a ha ⟨hcon.1, hcon.2, hact⟩

/-- Witness for C1 amended at a concrete table state: one active Joanna
audio on page 1 (below the default quota of 4), two racing reservations
for voice Kendra. -/
theorem createAudioRecord_race_exactly_one_witness :
    createAudioRecord ⟨1, siteSettingsDefaults⟩ sampleAudios ⟨1, 1⟩ "Kendra" 7 2
        = Except.ok (newPendingRow 2 ⟨1, 1⟩ "Kendra" 7,
            sampleAudios ++ [newPendingRow 2 ⟨1, 1⟩ "Kendra" 7]) ∧
    (newPendingRow 2 ⟨1, 1⟩ "Kendra" 7).status = AudioGenStatus.pending ∧
    (newPendingRow 2 ⟨1, 1⟩ "Kendra" 7).lifetimeStatus = LifetimeStatus.active ∧
    createAudioRecord ⟨1, siteSettingsDefaults⟩
        (sampleAudios ++ [newPendingRow 2 ⟨1, 1⟩ "Kendra" 7])
        ⟨1, 1⟩ "Kendra" 8 3 = Except.error (dupVoiceLockedMsg "Kendra") ∧
    uniqueActivePerPageVoice (sampleAudios ++ [newPendingRow 2 ⟨1, 1⟩ "Kendra" 7]) :=
  createAudioRecord_race_exactly_one ⟨1, siteSettingsDefaults⟩ sampleAudios
    ⟨1, 1⟩ "Kendra" 7 8 2 3 (by decide) (by decide) (by decide)

/-- C2: once the page has `max_audios_per_page` Audio rows of any
lifetime status, `check_generation_allowed` returns the quota error and
the allocation path of `generate_audio_for_page` fails without creating
a row. -/
theorem checkGenerationAllowed_quota
    (settingsObj : SiteSettingsRow) (audios : List AudioRow)
    (sharings : List SharingRow) (document : DocumentRow) (page : PageRow)
    (userId : Nat) (voiceId : String) (freshId : Nat)
    (henabled : settingsObj.fields.audioGenerationEnabled = true)
    (hquota : settingsObj.fields.maxAudiosPerPage ≤
      (audios.filter (·.pageId = page.id)).length) :
    checkGenerationAllowed settingsObj audios sharings document page userId voiceId
        = (false, some (quotaMsg settingsObj.fields.maxAudiosPerPage)) ∧
    generateAudioForPageAlloc settingsObj audios sharings document page userId
        voiceId freshId
        = Except.error (quotaMsg settingsObj.fields.maxAudiosPerPage) := by
  have hc : checkGenerationAllowed settingsObj audios sharings document page
      userId voiceId
      = (false, some (quotaMsg settingsObj.fields.maxAudiosPerPage)) := by
    unfold checkGenerationAllowed
    simp [henabled, hquota]
  refine ⟨hc, ?_⟩
  unfold generateAudioForPageAlloc
  rw [hc]
  rfl

/-- Witness for C2: four lifetime rows on page 1 (ACTIVE, DELETED,
EXPIRED, and a FAILED one), default quota 4: the fifth reservation is
rejected. -/
theorem checkGenerationAllowed_quota_witness :
    checkGenerationAllowed ⟨1, siteSettingsDefaults⟩ quotaAudios [] ⟨1, 7⟩ ⟨1, 1⟩
        7 "Kendra" = (false, some (quotaMsg 4)) ∧
    generateAudioForPageAlloc ⟨1, siteSettingsDefaults⟩ quotaAudios [] ⟨1, 7⟩
        ⟨1, 1⟩ 7 "Kendra" 5 = Except.error (quotaMsg 4) :=
  checkGenerationAllowed_quota ⟨1, siteSettingsDefaults⟩ quotaAudios [] ⟨1, 7⟩
    ⟨1, 1⟩ 7 "Kendra" 5 rfl (by decide)

/-- C3: the claim that every chunk returned by `chunk_text` has length at
most `MAX_CHARS_PER_REQUEST` fails, as the function's own docstring is
contradicted by its word-packing fallback: with the limit at 5, the
single whitespace-free 7-character word is returned whole as a chunk of
length 7. -/
theorem chunkText_returns_oversized_chunk :
    chunkText 5 ("aaaaaaa".toList) = [("aaaaaaa".toList)] ∧
    5 < ("aaaaaaa".toList).length := by decide

/-- C4: when `get_audio_signed_url` fails with `CloudFrontSigningError`
(incomplete configuration, bad key, or any crypto failure — the function
wraps everything into that error), `get_presigned_url` returns exactly
what `_get_s3_presigned_url` produces for the same resolved TTL, and when
that fallback also yields nothing the result is `none`; the embedded
function is total, mirroring that the method never raises. -/
theorem getPresignedUrl_fallback_policy
    (cfg : CloudFrontConfig)
    (botocoreSign : String → String → Nat → Except String String)
    (s3Presign : String → Nat → Option String)
    (s3Key : String) (expiration : Option Nat) (defaultExpiration : Nat)
    (e : String)
    (hsignfail : getAudioSignedUrl cfg botocoreSign s3Key
      (expiration.getD defaultExpiration) = Except.error e) :
    getPresignedUrl cfg botocoreSign s3Presign s3Key expiration defaultExpiration
        = s3Presign s3Key (expiration.getD defaultExpiration) ∧
    (s3Presign s3Key (expiration.getD defaultExpiration) = none →
      getPresignedUrl cfg botocoreSign s3Presign s3Key expiration defaultExpiration
        = none) := by
  have h : getPresignedUrl cfg botocoreSign s3Presign s3Key expiration
      defaultExpiration = s3Presign s3Key (expiration.getD defaultExpiration) := by
    simp only [getPresignedUrl, getS3PresignedUrl]
    rw [hsignfail]
  exact ⟨h, fun hnone => h.trans hnone⟩

/-- Witness for C4: CloudFront private key missing from settings, so
signing fails with the incomplete-configuration error and the S3
presigned URL is returned instead; with an S3 path that also fails, the
result is `none`. -/
theorem getPresignedUrl_fallback_policy_witness :
    getPresignedUrl ⟨"dxxxxxxxxxxxxx.cloudfront.net", "APKAEXAMPLE", ""⟩
        (fun _ _ _ => Except.ok ("signed-url"))
        (fun _ _ => some ("s3-presigned-url"))
        "audios/document_1/page_1/voice_Joanna_20250101_000000.mp3" none 3600
      = some ("s3-presigned-url") :=
  (getPresignedUrl_fallback_policy ⟨"dxxxxxxxxxxxxx.cloudfront.net", "APKAEXAMPLE", ""⟩
    (fun _ _ _ => Except.ok ("signed-url")) (fun _ _ => some ("s3-presigned-url"))
    "audios/document_1/page_1/voice_Joanna_20250101_000000.mp3" none 3600
    "CloudFront configuration incomplete in settings" rfl).1

/-- C5 counterexample: a non-retryable failure (the invalid-input error
text raised for `InvalidParameterValue`) on the first attempt is still
retried with a 60-second countdown — `generate_audio_task` retries every
exception, so it does not terminate immediately on non-retryable
failures as the claim states. -/
theorem generateAudioTask_retries_nonretryable :
    generateAudioTaskRun 0 true
        (Except.error ⟨false,
          "Invalid voice or text format. Please try a different voice."⟩)
      = (TaskOutcome.retryScheduled 60,
         some ("Invalid voice or text format. Please try a different voice.")) := by
  rfl

/-- C5 amended: `generate_audio_task` retries the entire pipeline on
every failure — retryable or not — with exponential backoff
`60 * 2 ^ attempt` seconds while `self.request.retries < max_retries`
(3), and returns the terminal failure once the three retries are
exhausted. -/
theorem generateAudioTask_retry_policy (e : PipelineFailure) (selfRetries : Nat) :
    (selfRetries < 3 →
      generateAudioTaskRun selfRetries true (Except.error e)
        = (TaskOutcome.retryScheduled (60 * 2 ^ selfRetries), some e.msg)) ∧
    (3 ≤ selfRetries →
      generateAudioTaskRun selfRetries true (Except.error e)
        = (TaskOutcome.finalFailure e.msg, some e.msg)) := by
  refine ⟨fun h => ?_, fun h => ?_⟩
  · simp [generateAudioTaskRun, generateAudioTask, h]
  · simp [generateAudioTaskRun, generateAudioTask, Nat.not_lt.mpr h]

/-- Witness for C5 amended: retries exhausted after the third retry. -/
theorem generateAudioTask_retry_policy_witness :
    generateAudioTaskRun 3 true
        (Except.error ⟨true, "AWS service is busy. Please try again in a moment."⟩)
      = (TaskOutcome.finalFailure ("AWS service is busy. Please try again in a moment."),
         some ("AWS service is busy. Please try again in a moment.")) :=
  (generateAudioTask_retry_policy
    ⟨true, "AWS service is busy. Please try again in a moment."⟩ 3).2 (by decide)

/-- C6: the failure branch of `merge_audio_chunks` (services.py line 239)
builds its `AudioGenerationError` as
`"Failed to merge audio chunks: " + str(e)`, embedding the decoder's raw
exception text — here one containing a connection string — in the
message that reaches the caller and is stored as `error_message`,
contradicting the sanitization the `AudioGenerationError` docstring
promises. -/
theorem mergeAudioChunks_embeds_raw_exception :
    mergeAudioChunks
        (fun _ => Except.error
          ("Decoding failed: could not connect to postgres://tts:secret@db:5432/tts"))
        (fun _ _ => ()) (fun _ => ([] : ByteBuf)) [[1], [2]]
      = Except.error
          ("Failed to merge audio chunks: Decoding failed: could not connect to postgres://tts:secret@db:5432/tts") := by
  rfl

/-- C7 counterexample: a text of `MAX_CHARS + 1` characters does not
always yield at least two chunks — a single unbroken 6-character word
with the limit at 5 comes back as one (oversized) chunk. -/
theorem chunkText_maxPlusOne_one_chunk :
    ("aaaaaa".toList).length = 5 + 1 ∧
    (chunkText 5 ("aaaaaa".toList)).length = 1 := by decide

/-- C7 amended: a text of exactly `MAX_CHARS` characters returns exactly
one chunk (the text itself); texts of `MAX_CHARS + 1` characters return
at least two chunks only when a split point is available, as the
6-character `"aa.bbb"` at limit 5 does. -/
theorem chunkText_boundary_amended (maxChars : Nat) (text : List Char)
    (hlen : text.length = maxChars) :
    chunkText maxChars text = [text] ∧
    (chunkText 5 ("aa.bbb".toList)).length = 2 := by
  constructor
  · unfold chunkText
    rw [if_pos (Nat.le_of_eq hlen)]
  · decide

/-- Witness for C7 amended at a 3-character text with limit 3. -/
theorem chunkText_boundary_amended_witness :
    chunkText 3 ("abc".toList) = [("abc".toList)] ∧
    (chunkText 5 ("aa.bbb".toList)).length = 2 :=
  chunkText_boundary_amended 3 ("abc".toList) (by decide)

/-- C8: merging a single audio buffer returns that buffer byte-identical,
for every behaviour of the decoder, concatenation and encoder — the
single-element branch of `merge_audio_chunks` never invokes them. -/
theorem mergeAudioChunks_single_identity {Seg : Type}
    (dec : ByteBuf → Except String Seg) (app : Seg → Seg → Seg)
    (expOut : Seg → ByteBuf) (x : ByteBuf) :
    mergeAudioChunks dec app expOut [x] = Except.ok x := rfl

/-- C9 counterexample: the singleton guard of `SiteSettings.save` only
fires for instances with no primary key; saving a never-persisted
instance constructed with the explicit unused pk 2 while the row with
pk 1 exists succeeds and leaves two `SiteSettings` rows. -/
theorem siteSettingsSave_second_instance_succeeds :
    siteSettingsSave [⟨1, siteSettingsDefaults⟩] ⟨some 2, siteSettingsDefaults⟩
      = Except.ok [⟨1, siteSettingsDefaults⟩, ⟨2, siteSettingsDefaults⟩] := by
  rfl

/-- C9 amended: saving a `SiteSettings` instance with no primary key when
a row already exists always fails with the validation error, and a
pk-less save into an empty table creates the single row — the
single-instance invariant is enforced only against pk-less creation, not
against saves carrying an explicit unused primary key. -/
theorem siteSettingsSave_pkless_guard
    (db : List SiteSettingsRow) (inst : SiteSettingsInstance)
    (hnew : inst.pk = none) :
    (db ≠ [] → siteSettingsSave db inst
        = Except.error ("Only one SiteSettings instance is allowed.")) ∧
    (db = [] → siteSettingsSave db inst = Except.ok [⟨1, inst.fields⟩]) := by
  constructor
  · intro hne
    unfold siteSettingsSave
    rw [hnew]
    simp [hne]
  · intro he
    subst he
    unfold siteSettingsSave
    rw [hnew]
    simp

/-- Witness for C9 amended: a pk-less save against the existing settings
row is rejected. -/
theorem siteSettingsSave_pkless_guard_witness :
    siteSettingsSave [⟨1, siteSettingsDefaults⟩] ⟨none, siteSettingsDefaults⟩
      = Except.error ("Only one SiteSettings instance is allowed.") :=
  (siteSettingsSave_pkless_guard [⟨1, siteSettingsDefaults⟩]
    ⟨none, siteSettingsDefaults⟩ rfl).1 (by decide)

/-- C10 counterexample: a whitespace-only input longer than the limit is
not returned unchanged — six spaces at limit 5 come back truncated to
five. -/
theorem chunkText_whitespace_not_unchanged :
    chunkText 5 (List.replicate 6 ' ') ≠ [List.replicate 6 ' '] := by decide

/-- C10 amended: `chunk_text` always returns a non-empty list; every
input of length at most `MAX_CHARS` (in particular empty or
whitespace-only input) is returned unchanged as the single chunk; a
whitespace-only input longer than `MAX_CHARS` yields the single
truncated chunk `text[:MAX_CHARS]`. -/
theorem chunkText_total_behavior (maxChars : Nat) (text : List Char) :
    chunkText maxChars text ≠ [] ∧
    (text.length ≤ maxChars → chunkText maxChars text = [text]) ∧
    ((∀ c ∈ text, isPySpace c = true) → maxChars < text.length →
      chunkText maxChars text = [text.take maxChars]) := by
  refine ⟨?_, fun h => ?_, fun hsp hlt => ?_⟩
  · unfold chunkText
    split
    · simp
    · exact if_nil_singleton_ne_nil _ _
  · unfold chunkText
    rw [if_pos h]
  · have htm : normalizeTerminators text = text := normalizeTerminators_of_space hsp
    have hs : pySplitOn '.' (normalizeTerminators text) = [text] := by
      rw [htm]
      exact pySplitOn_eq_single '.' text (fun c hc => isPySpace_ne_dot (hsp c hc))
    have hst : pyStrip text = [] := pyStrip_eq_nil hsp
    unfold chunkText
    rw [if_neg (by omega)]
    simp only [hs]
    simp [chunkLoop, hst]

/-- Witness for C10 amended: the all-whitespace over-limit input is
truncated to the first five characters. -/
theorem chunkText_total_behavior_witness :
    chunkText 5 (List.replicate 6 ' ') = [(List.replicate 6 ' ').take 5] :=
  (chunkText_total_behavior 5 (List.replicate 6 ' ')).2.2 (by decide) (by decide)
